import Mathlib

/-!
Verification development for the ZordBOT mint automation bot.

The definitions below are a shallow embedding of the Python sources:
`core/inscription.py`, `core/rpc.py`, `core/mint_engine.py`,
`core/wallet.py` and `main.py`.  Byte strings are modelled as `List Nat`
(each element a byte value), floating-point fee quantities as `ℚ`, and
the external world (RPC node responses, HTTP fee/ticker APIs) as
explicit oracle parameters.  Fallible operations return `Option` or a
dedicated result inductive.
-/

namespace ZordBOT

/-- UTF-8 encoding of one character as a list of byte values
(models Python `str.encode()` per character). -/
def utf8Char (c : Char) : List Nat :=
  let n := c.toNat
  if n < 128 then [n]
  else if n < 2048 then [192 + n / 64, 128 + n % 64]
  else if n < 65536 then [224 + n / 4096, 128 + n / 64 % 64, 128 + n % 64]
  else [240 + n / 262144, 128 + n / 4096 % 64, 128 + n / 64 % 64, 128 + n % 64]

/-- UTF-8 bytes of a string (models Python `str.encode()`). -/
def strBytes (s : String) : List Nat :=
  (s.data.map utf8Char).flatten

/-- `needle` occurs at the head of `hay`. -/
def bytesStartWith : List Nat → List Nat → Bool
  | [], _ => true
  | _ :: _, [] => false
  | a :: as, b :: bs => a = b && bytesStartWith as bs

/-- `needle` occurs as a contiguous byte substring of `hay`
(the Python `in` operator on `bytes`). -/
def bytesContain (needle : List Nat) : List Nat → Bool
  | [] => needle.isEmpty
  | b :: bs => bytesStartWith needle (b :: bs) || bytesContain needle bs

/-- Models Python `str.lower()` restricted to ASCII letters (all inputs
appearing in the repository are ASCII). -/
def pyLower (s : String) : String :=
  String.mk (s.data.map fun c =>
    if 65 ≤ c.toNat ∧ c.toNat ≤ 90 then Char.ofNat (c.toNat + 32) else c)

/-- `core/inscription.py::build_inscription_script`: magic bytes
`b"\x03ord\x11"`, the ASCII mime string `application/json`, one zero
byte, then the UTF-8 bytes of the JSON payload. -/
def build_inscription_script (data_json : String) : List Nat :=
  let magic : List Nat := [3, 111, 114, 100, 17]
  let mime : List Nat := strBytes "application/json"
  let null : List Nat := [0]
  magic ++ mime ++ null ++ strBytes data_json

/-- Lower-case hex digit for `n < 16` (as produced by Python `%04x`). -/
def hexDigitChar (n : Nat) : Char :=
  if n < 10 then Char.ofNat (48 + n) else Char.ofNat (87 + n)

/-- Four lower-case hex digits of `n` (Python `'%04x' % n`). -/
def hex4 (n : Nat) : String :=
  String.mk [hexDigitChar (n / 4096 % 16), hexDigitChar (n / 256 % 16),
    hexDigitChar (n / 16 % 16), hexDigitChar (n % 16)]

/-- JSON escaping of one character as done by Python `json.dumps` with
its default `ensure_ascii=True`: `"` and `\` are backslash-escaped, the
named control escapes are used for backspace, tab, newline, form feed
and carriage return, every other character outside `0x20..0x7e` becomes
`\uXXXX` (a surrogate pair above `0xFFFF`). -/
def jsonEscapeChar (c : Char) : String :=
  let n := c.toNat
  if n = 34 then "\\\""
  else if n = 92 then "\\\\"
  else if n = 8 then "\\b"
  else if n = 9 then "\\t"
  else if n = 10 then "\\n"
  else if n = 12 then "\\f"
  else if n = 13 then "\\r"
  else if n < 32 ∨ 126 < n then
    if n < 65536 then "\\u" ++ hex4 n
    else
      let m := n - 65536
      "\\u" ++ hex4 (55296 + m / 1024) ++ "\\u" ++ hex4 (56320 + m % 1024)
  else String.mk [c]

/-- Python `json.dumps` of a string value. -/
def pyJsonStr (s : String) : String :=
  "\"" ++ String.join (s.data.map jsonEscapeChar) ++ "\""

/-- `core/inscription.py::build_mint_json`, also the inline dict built in
`MintEngine.mint` and serialised with `json.dumps(.., separators=(",", ":"))`:
compact JSON with keys in insertion order `p, op, tick, amt`, the amount
rendered as a string. -/
def build_mint_json (tick : String) (amount : Int) : String :=
  "\x7b\"p\":\"zrc-20\",\"op\":\"mint\",\"tick\":" ++ pyJsonStr tick ++
    ",\"amt\":" ++ pyJsonStr (toString amount) ++ "\x7d"

/-- `core/rpc.py::RPCClient` node-selection state: the length of the
configured node list and the current index. -/
structure RPCClient where
  numNodes : Nat
  index : Nat
deriving DecidableEq

/-- `core/rpc.py::RPCClient._switch_node`: advance the index by one
modulo the node count. -/
def RPCClient.switch_node (c : RPCClient) : RPCClient :=
  { c with index := (c.index + 1) % c.numNodes }

/-- Node indices visited by `RPCClient.call` across `k` consecutive
failing attempts: each attempt uses the current node, then the failure
handler calls `_switch_node` before the next attempt. -/
def RPCClient.failedAttempts : RPCClient → Nat → List Nat
  | _, 0 => []
  | c, k + 1 => c.index :: c.switch_node.failedAttempts k

/-- Python truthiness of an `Optional[float]`: `None` and `0.0` are
falsy, every other value truthy. -/
def truthyQ : Option ℚ → Bool
  | none => false
  | some x => decide (x ≠ 0)

/-- `core/mint_engine.py::FeeEstimator._estimate_from_rpc`: the oracle
`feerate` is the `feerate` field of the `estimatesmartfee` response
(`none` models a raised exception or a missing/absent field).  A truthy
feerate is scaled by `tx_size_bytes / 1000`; otherwise `None`. -/
def estimate_from_rpc (feerate : Option ℚ) (tx_size_bytes : ℚ) : Option ℚ :=
  match feerate with
  | none => none
  | some f => if f = 0 then none else some (f * (tx_size_bytes / 1000))

/-- `core/mint_engine.py::FeeEstimator._estimate_from_api`: the oracle
`fee_value` is the configured JSON field of the external fee API
response (`none` models a request/parse failure or missing field or an
unconfigured URL).  A truthy value is returned as-is; otherwise `None`. -/
def estimate_from_api (fee_value : Option ℚ) : Option ℚ :=
  match fee_value with
  | none => none
  | some v => if v = 0 then none else some v

/-- Result of one `FeeEstimator.estimate` run: the fee produced and
which of the two fallible sources were invoked. -/
structure FeeRun where
  fee : ℚ
  rpcConsulted : Bool
  apiConsulted : Bool
deriving DecidableEq

/-- `core/mint_engine.py::FeeEstimator.estimate`, instrumented with
which sources are consulted.  If dynamic estimation is off the default
is returned at once; otherwise the sources are tried in order
(`_estimate_from_rpc`, `_estimate_from_api`, a lambda returning the
default) and the first truthy result wins; if the loop finds no truthy
value the default is returned.  The third source always yields the
default, so both of the last two cases produce the default. -/
def estimateRun (default_fee : ℚ) (dynamic : Bool) (tx_size_bytes : ℚ)
    (feerate apiField : Option ℚ) : FeeRun :=
  if !dynamic then ⟨default_fee, false, false⟩
  else
    let s1 := estimate_from_rpc feerate tx_size_bytes
    if truthyQ s1 then ⟨s1.getD default_fee, true, false⟩
    else
      let s2 := estimate_from_api apiField
      if truthyQ s2 then ⟨s2.getD default_fee, true, true⟩
      else ⟨default_fee, true, true⟩

/-- `core/mint_engine.py::FeeEstimator.estimate`: the fee value alone. -/
def FeeEstimator.estimate (default_fee : ℚ) (dynamic : Bool) (tx_size_bytes : ℚ)
    (feerate apiField : Option ℚ) : ℚ :=
  (estimateRun default_fee dynamic tx_size_bytes feerate apiField).fee

/-- Hex digit value (Python `bytes.fromhex` digit handling). -/
def hexDigitVal (c : Char) : Option Nat :=
  let n := c.toNat
  if 48 ≤ n ∧ n ≤ 57 then some (n - 48)
  else if 97 ≤ n ∧ n ≤ 102 then some (n - 87)
  else if 65 ≤ n ∧ n ≤ 70 then some (n - 55)
  else none

/-- Decode a hex character list two digits at a time; `none` models the
`ValueError` Python `bytes.fromhex` raises on bad input. -/
def bytesFromHexList : List Char → Option (List Nat)
  | [] => some []
  | [_] => none
  | c1 :: c2 :: rest =>
    match hexDigitVal c1, hexDigitVal c2, bytesFromHexList rest with
    | some h, some l, some bs => some ((16 * h + l) :: bs)
    | _, _, _ => none

/-- Python `bytes.fromhex`. -/
def bytesFromHex (s : String) : Option (List Nat) :=
  bytesFromHexList s.data

/-- `core/mint_engine.py::MempoolScanner.contains_tick`.  The oracle
`rawTxs` lists, per mempool transaction id, the `getrawtransaction`
result (`none` models a raised per-transaction fetch error, which is
skipped).  At most `max_scan` entries are inspected.  For each raw hex
string the code tests `tick.lower().encode() in bytes.fromhex(raw.lower())`:
the tick is lowercased and UTF-8 encoded, the hex string is lowercased
before decoding, and the needle is searched as a contiguous byte
substring; the first hit short-circuits with `true`. -/
def MempoolScanner.contains_tick (tick : String) (rawTxs : List (Option String))
    (max_scan : Nat) : Bool :=
  let needle := strBytes (pyLower tick)
  (rawTxs.take max_scan).any fun fetched =>
    match fetched with
    | none => false
    | some raw =>
      match bytesFromHex (pyLower raw) with
      | none => false
      | some txBytes => bytesContain needle txBytes

/-- `core/mint_engine.py::MintEngine._should_proceed`.  The oracle
`tickerLive` is `some b` when a ticker watcher is configured and its
`is_tick_live` returns `b`, `none` when no watcher is configured;
likewise `mempoolHasTick` for a configured mempool scanner's
`contains_tick` result. -/
def should_proceed (tickerLive mempoolHasTick : Option Bool) : Bool :=
  if tickerLive = some false then false
  else if mempoolHasTick = some true then false
  else true

/-- `core/mint_engine.py::MintEngine.can_mint`: returns `_should_proceed`. -/
def can_mint (tickerLive mempoolHasTick : Option Bool) : Bool :=
  should_proceed tickerLive mempoolHasTick

/-- Errors a mint call can surface (the `RuntimeError`s raised in
`MintEngine.mint` / `_build_transaction` and propagated RPC errors). -/
inductive MintErr where
  | gated (tick : String)
  | insufficientFunds
  | sendFailed (msg : String)
  | exhausted
deriving DecidableEq

/-- Outcome of a mint call or of one mint attempt. -/
inductive MintOutcome where
  | ok (txid : String)
  | err (e : MintErr)
deriving DecidableEq

/-- Outcome of one `sendrawtransaction` RPC call. -/
inductive RPCResult where
  | ok (val : String)
  | err (msg : String)
deriving DecidableEq

/-- Per-attempt oracle for `MintEngine.mint._execute`: the `hex` field
of the `signrawtransaction` response (`none` when absent) and the
`sendrawtransaction` result. -/
structure AttemptEnv where
  signHex : Option String
  sendResult : RPCResult
deriving DecidableEq

/-- Trace of one attempt: the arguments passed to `sendrawtransaction`
and the attempt's result. -/
structure ExecTrace where
  broadcasts : List String
  result : MintOutcome
deriving DecidableEq

/-- `core/mint_engine.py::MintEngine.mint._execute` together with the
`_build_transaction` insufficient-funds check it begins with:
if `utxo.amount - fee <= 0` the attempt raises before any RPC call;
otherwise the transaction hex is signed, the final hex is the response's
`hex` field falling back to the unsigned `raw_hex`
(`signed.get("hex", raw_hex)`), and that hex is broadcast. -/
def execute (utxo_amount fee : ℚ) (raw_hex : String) (a : AttemptEnv) : ExecTrace :=
  if utxo_amount - fee ≤ 0 then ⟨[], .err .insufficientFunds⟩
  else
    let final_hex := a.signHex.getD raw_hex
    match a.sendResult with
    | .ok txid => ⟨[final_hex], .ok txid⟩
    | .err m => ⟨[final_hex], .err (.sendFailed m)⟩

/-- Trace of the whole retry loop: attempts performed, all broadcast
arguments, final outcome. -/
structure RetryTrace where
  attempts : Nat
  broadcasts : List String
  outcome : MintOutcome
deriving DecidableEq

/-- The tenacity `Retrying` loop in `MintEngine.mint` (`reraise=True`,
`stop_after_attempt`): run `_execute` with the given fuel; a success
stops, a failure on the last allowed attempt re-raises the last error,
otherwise the next attempt runs.  `env idx` is the oracle for attempt
`idx`. -/
def mintRetry (utxo_amount fee : ℚ) (raw_hex : String) (env : Nat → AttemptEnv) :
    Nat → Nat → RetryTrace
  | _, 0 => ⟨0, [], .err .exhausted⟩
  | idx, fuel + 1 =>
    let t := execute utxo_amount fee raw_hex (env idx)
    match t.result with
    | .ok txid => ⟨1, t.broadcasts, .ok txid⟩
    | .err e =>
      if fuel = 0 then ⟨1, t.broadcasts, .err e⟩
      else
        let r := mintRetry utxo_amount fee raw_hex env (idx + 1) fuel
        ⟨r.attempts + 1, t.broadcasts ++ r.broadcasts, r.outcome⟩

/-- Engine configuration (`MintEngine.__init__` / `FeeEstimator`). -/
structure MintCfg where
  retry_attempts : Nat
  default_fee : ℚ
  fee_dynamic : Bool
  tx_size_bytes : ℚ
deriving DecidableEq

/-- External-world oracle for one `MintEngine.mint` call. -/
structure MintEnv where
  tickerLive : Option Bool
  mempoolHasTick : Option Bool
  feerate : Option ℚ
  apiField : Option ℚ
  raw_hex : String
  attempt : Nat → AttemptEnv

/-- Trace of one `MintEngine.mint` call: number of
`FeeEstimator.estimate` calls, inscription JSON built, attempts run,
broadcast arguments, outcome. -/
structure MintTrace where
  feeCalls : Nat
  inscription : String
  attempts : Nat
  broadcasts : List String
  outcome : MintOutcome

/-- `core/mint_engine.py::MintEngine.mint`: builds the inscription JSON,
checks gating (raising a gating `RuntimeError` when `_should_proceed` is
false, before any fee estimation), estimates the fee once, then runs the
retry loop over `_execute` with `max(1, retry_attempts)` attempts.
Transaction byte serialisation is delegated to the external library and
modelled by the oracle `raw_hex`. -/
def MintEngine.mint (cfg : MintCfg) (env : MintEnv) (utxo_amount : ℚ)
    (tick : String) (amount : Int) : MintTrace :=
  let inscription_json := build_mint_json tick amount
  if !(should_proceed env.tickerLive env.mempoolHasTick) then
    ⟨0, inscription_json, 0, [], .err (.gated tick)⟩
  else
    let fee := FeeEstimator.estimate cfg.default_fee cfg.fee_dynamic
      cfg.tx_size_bytes env.feerate env.apiField
    let r := mintRetry utxo_amount fee env.raw_hex env.attempt 0
      (max 1 cfg.retry_attempts)
    ⟨1, inscription_json, r.attempts, r.broadcasts, r.outcome⟩

/-- `core/wallet.py::MultiWallet.richest_wallet`: pair every wallet with
its live aggregate balance and take the maximum by balance (Python `max`
keeps the first maximal element).  Wallets are identified by address. -/
def MultiWallet.richest_wallet (wallets : List String) (balance : String → ℚ) :
    Option String :=
  match wallets.map (fun w => (w, balance w)) with
  | [] => none
  | b :: bs => some (bs.foldl (fun acc item => if item.2 > acc.2 then item else acc) b).1

/-- Result of `WalletSelector.pick`: a wallet, or the Python exception
the call raises. -/
inductive PickResult where
  | wallet (w : String)
  | error (msg : String)
deriving DecidableEq

/-- `main.py::WalletSelector.pick`.  With at most one wallet, `multi` is
`None` and `wallets[0]` is returned.  Otherwise, strategy `"richest"`
executes `self.multi.richest(min_conf)` — but `MultiWallet` defines only
`next_wallet`, `richest_wallet` and `all`, so attribute lookup of
`richest` raises `AttributeError`.  Any other strategy takes the next
wallet of the round-robin cycle (`rr` is the cycle position). -/
def WalletSelector.pick (wallets : List String) (strategy : String)
    (_balance : String → ℚ) (rr : Nat) : PickResult :=
  if wallets.length ≤ 1 then
    match wallets with
    | [] => .error "IndexError"
    | w :: _ => .wallet w
  else if strategy = "richest" then
    .error "AttributeError"
  else
    .wallet (wallets.getD (rr % wallets.length) "")

/-! ### Helper lemmas -/

/-- One-step unfolding of the retry loop. -/
theorem mintRetry_succ (utxo_amount fee : ℚ) (raw : String)
    (env : Nat → AttemptEnv) (idx fuel : Nat) :
    mintRetry utxo_amount fee raw env idx (fuel + 1) =
      match (execute utxo_amount fee raw (env idx)).result with
      | .ok txid => ⟨1, (execute utxo_amount fee raw (env idx)).broadcasts, .ok txid⟩
      | .err e =>
        if fuel = 0 then
          ⟨1, (execute utxo_amount fee raw (env idx)).broadcasts, .err e⟩
        else
          ⟨(mintRetry utxo_amount fee raw env (idx + 1) fuel).attempts + 1,
            (execute utxo_amount fee raw (env idx)).broadcasts ++
              (mintRetry utxo_amount fee raw env (idx + 1) fuel).broadcasts,
            (mintRetry utxo_amount fee raw env (idx + 1) fuel).outcome⟩ := rfl

/-- When the selected UTXO does not cover the fee, every attempt of the
retry loop raises the insufficient-funds error before any RPC call, so
the loop consumes its whole fuel and re-raises that error. -/
theorem mintRetry_insufficient (utxo_amount fee : ℚ) (raw : String)
    (env : Nat → AttemptEnv) (h : utxo_amount - fee ≤ 0) :
    ∀ fuel idx, mintRetry utxo_amount fee raw env idx (fuel + 1) =
      ⟨fuel + 1, [], .err .insufficientFunds⟩ := by
  intro fuel
  induction fuel with
  | zero =>
    intro idx
    have hexec : execute utxo_amount fee raw (env idx) =
        ⟨[], .err .insufficientFunds⟩ := by
      simp [execute, h]
    rw [mintRetry_succ, hexec]
    rfl
  | succ n ih =>
    intro idx
    have hexec : execute utxo_amount fee raw (env idx) =
        ⟨[], .err .insufficientFunds⟩ := by
      simp [execute, h]
    rw [mintRetry_succ, hexec]
    simp [ih (idx + 1)]

/-- The node indices visited across `k` consecutive failing RPC attempts
starting at index `i < N` are `(i + j) % N` for `j = 0, …, k-1`. -/
theorem failedAttempts_eq (N : Nat) (hN : 0 < N) :
    ∀ (k i : Nat), i < N →
      RPCClient.failedAttempts ⟨N, i⟩ k =
        (List.range k).map fun j => (i + j) % N := by
  intro k
  induction k with
  | zero => intro i _; rfl
  | succ n ih =>
    intro i hi
    have hstep : RPCClient.failedAttempts ⟨N, i⟩ (n + 1) =
        i :: RPCClient.failedAttempts ⟨N, (i + 1) % N⟩ n := rfl
    rw [hstep, ih ((i + 1) % N) (Nat.mod_lt _ hN), List.range_succ_eq_map,
      List.map_cons, List.map_map]
    refine congrArg₂ _ ?_ ?_
    · simp [Nat.mod_eq_of_lt hi]
    · refine List.map_congr_left fun j _ => ?_
      show ((i + 1) % N + j) % N = (i + Nat.succ j) % N
      rw [Nat.mod_add_mod]
      congr 1
      omega

/-- When gating rejects, `mint` returns the gating error trace before
any fee estimation or attempt. -/
theorem mint_gated_eq (cfg : MintCfg) (env : MintEnv) (utxo_amount : ℚ)
    (tick : String) (amount : Int)
    (hg : should_proceed env.tickerLive env.mempoolHasTick = false) :
    MintEngine.mint cfg env utxo_amount tick amount =
      ⟨0, build_mint_json tick amount, 0, [], .err (.gated tick)⟩ := by
  unfold MintEngine.mint
  rw [hg]
  rfl

/-! ### Claim theorems -/

/-- C1 (amended): when the selected UTXO's amount minus the estimated
fee is `≤ 0`, `MintEngine.mint` fails with the insufficient-funds error
and issues zero `sendrawtransaction` calls, but not immediately: the
error is raised inside the retry loop, so the full configured budget of
`max 1 retry_attempts` attempts is performed before the error
surfaces. -/
theorem mint_insufficient_funds_no_broadcast (cfg : MintCfg) (env : MintEnv)
    (utxo_amount : ℚ) (tick : String) (amount : Int)
    (hp : should_proceed env.tickerLive env.mempoolHasTick = true)
    (hf : utxo_amount - FeeEstimator.estimate cfg.default_fee cfg.fee_dynamic
        cfg.tx_size_bytes env.feerate env.apiField ≤ 0) :
    (MintEngine.mint cfg env utxo_amount tick amount).outcome =
      .err .insufficientFunds ∧
    (MintEngine.mint cfg env utxo_amount tick amount).broadcasts = [] ∧
    (MintEngine.mint cfg env utxo_amount tick amount).attempts =
      max 1 cfg.retry_attempts := by
  have hmax : max 1 cfg.retry_attempts = (max 1 cfg.retry_attempts - 1) + 1 := by
    omega
  have hm := mintRetry_insufficient utxo_amount
    (FeeEstimator.estimate cfg.default_fee cfg.fee_dynamic cfg.tx_size_bytes
      env.feerate env.apiField) env.raw_hex env.attempt hf
    (max 1 cfg.retry_attempts - 1) 0
  have hmint : MintEngine.mint cfg env utxo_amount tick amount =
      ⟨1, build_mint_json tick amount, max 1 cfg.retry_attempts, [],
        .err .insufficientFunds⟩ := by
    unfold MintEngine.mint
    rw [hp, hmax]
    simp only [Bool.not_true, Bool.false_eq_true, if_false, hm]
  rw [hmint]
  exact ⟨rfl, rfl, rfl⟩

/-- C5 (amended): when gating rejects the tick (ticker watcher reports
not live, or the mempool scanner finds the tick pending), `mint` makes
no mint attempt — zero fee-estimation calls, zero attempts, zero
broadcasts — but it does raise: the gating rejection surfaces as the
`RuntimeError` `Tick ... gated by watcher`; the non-raising boolean/skip
outcome exists only in the `can_mint` probe used by external
watchers. -/
theorem mint_gating_aborts_with_error (cfg : MintCfg) (env : MintEnv)
    (utxo_amount : ℚ) (tick : String) (amount : Int)
    (hg : should_proceed env.tickerLive env.mempoolHasTick = false) :
    (MintEngine.mint cfg env utxo_amount tick amount).outcome =
      .err (.gated tick) ∧
    (MintEngine.mint cfg env utxo_amount tick amount).feeCalls = 0 ∧
    (MintEngine.mint cfg env utxo_amount tick amount).attempts = 0 ∧
    (MintEngine.mint cfg env utxo_amount tick amount).broadcasts = [] ∧
    can_mint env.tickerLive env.mempoolHasTick = false := by
  rw [mint_gated_eq cfg env utxo_amount tick amount hg]
  exact ⟨rfl, rfl, rfl, rfl, hg⟩

/-- C6: gating runs strictly before fee estimation and broadcast: when a
configured ticker watcher reports the tick not live, `mint` performs
zero fee-estimation calls and zero broadcast calls (and zero
attempts). -/
theorem mint_gating_before_fee_and_broadcast (cfg : MintCfg) (env : MintEnv)
    (utxo_amount : ℚ) (tick : String) (amount : Int)
    (hg : env.tickerLive = some false) :
    (MintEngine.mint cfg env utxo_amount tick amount).feeCalls = 0 ∧
    (MintEngine.mint cfg env utxo_amount tick amount).broadcasts = [] ∧
    (MintEngine.mint cfg env utxo_amount tick amount).attempts = 0 := by
  have hsp : should_proceed env.tickerLive env.mempoolHasTick = false := by
    rw [should_proceed, hg]
    simp
  rw [mint_gated_eq cfg env utxo_amount tick amount hsp]
  exact ⟨rfl, rfl, rfl⟩

/-- C10: when the `signrawtransaction` response has no `hex` field, the
attempt does not fail: `signed.get("hex", raw_hex)` falls back to the
original unsigned raw transaction hex, and exactly that hex is passed to
`sendrawtransaction`. -/
theorem mint_sign_hex_fallback (cfg : MintCfg) (env : MintEnv)
    (utxo_amount : ℚ) (tick : String) (amount : Int) (txid : String)
    (hp : should_proceed env.tickerLive env.mempoolHasTick = true)
    (hf : 0 < utxo_amount - FeeEstimator.estimate cfg.default_fee cfg.fee_dynamic
        cfg.tx_size_bytes env.feerate env.apiField)
    (ha : env.attempt 0 = ⟨none, .ok txid⟩) :
    (MintEngine.mint cfg env utxo_amount tick amount).broadcasts =
      [env.raw_hex] ∧
    (MintEngine.mint cfg env utxo_amount tick amount).outcome = .ok txid ∧
    (MintEngine.mint cfg env utxo_amount tick amount).attempts = 1 := by
  have hmax : max 1 cfg.retry_attempts = (max 1 cfg.retry_attempts - 1) + 1 := by
    omega
  have hexec : execute utxo_amount
      (FeeEstimator.estimate cfg.default_fee cfg.fee_dynamic cfg.tx_size_bytes
        env.feerate env.apiField) env.raw_hex (env.attempt 0) =
      ⟨[env.raw_hex], .ok txid⟩ := by
    rw [ha]
    unfold execute
    rw [if_neg (not_le.mpr hf)]
    rfl
  have hm : mintRetry utxo_amount
      (FeeEstimator.estimate cfg.default_fee cfg.fee_dynamic cfg.tx_size_bytes
        env.feerate env.apiField) env.raw_hex env.attempt 0
      (max 1 cfg.retry_attempts) = ⟨1, [env.raw_hex], .ok txid⟩ := by
    rw [hmax, mintRetry_succ, hexec]
  have hmint : MintEngine.mint cfg env utxo_amount tick amount =
      ⟨1, build_mint_json tick amount, 1, [env.raw_hex], .ok txid⟩ := by
    unfold MintEngine.mint
    rw [hp]
    simp only [Bool.not_true, Bool.false_eq_true, if_false, hm]
  rw [hmint]
  exact ⟨rfl, rfl, rfl⟩

/-- C2: for every tick and integer amount, the inscription script bytes
for a mint are exactly the magic bytes `03 'o' 'r' 'd' 11`, the ASCII
mime string `application/json`, a single zero byte, and the UTF-8 bytes
of the compact JSON object with keys in order `p, op, tick, amt` and the
amount serialised as a string; in particular for tick `ZERO` and amount
`100` the bytes are the magic/mime/zero prefix followed by
`{"p":"zrc-20","op":"mint","tick":"ZERO","amt":"100"}` with no
extraneous whitespace. -/
theorem inscription_wire_format :
    (∀ (tick : String) (amount : Int),
      build_inscription_script (build_mint_json tick amount) =
        [3, 111, 114, 100, 17] ++ strBytes "application/json" ++ [0] ++
          strBytes (build_mint_json tick amount)) ∧
    build_mint_json "ZERO" 100 =
      "\x7b\"p\":\"zrc-20\",\"op\":\"mint\",\"tick\":\"ZERO\",\"amt\":\"100\"\x7d" ∧
    build_inscription_script (build_mint_json "ZERO" 100) =
      [3, 111, 114, 100, 17] ++ strBytes "application/json" ++ [0] ++
        strBytes "\x7b\"p\":\"zrc-20\",\"op\":\"mint\",\"tick\":\"ZERO\",\"amt\":\"100\"\x7d" := by
  refine ⟨fun tick amount => rfl, by decide, by decide⟩

/-- C7: the mempool scan is not case-insensitive with respect to the
transaction bytes: the code searches for the lowercased tick inside the
decoded bytes, and lowercasing the hex string before decoding does not
change the decoded bytes.  Failing input: tick `"ZERO"` and a mempool
transaction whose raw hex `"5a45524f"` decodes exactly to the bytes of
`"ZERO"`; the scan returns `false` although the tick occurs verbatim. -/
theorem mempool_scan_case_sensitivity_bug :
    MempoolScanner.contains_tick "ZERO" [some "5a45524f"] 100 = false ∧
    bytesFromHex (pyLower "5a45524f") = some (strBytes "ZERO") ∧
    bytesContain (strBytes "ZERO") (strBytes "ZERO") = true := by
  decide

/-- C8: with strategy `"richest"` and more than one wallet configured,
`WalletSelector.pick` raises `AttributeError` (it calls
`MultiWallet.richest`, a method that does not exist — the implemented
method is `richest_wallet`), instead of returning the wallet with the
highest aggregate balance, which `richest_wallet` itself would select. -/
theorem wallet_selector_richest_attribute_error :
    WalletSelector.pick ["w1", "w2"] "richest"
        (fun w => if w = "w2" then (5 : ℚ) else 1) 0 =
      PickResult.error "AttributeError" ∧
    MultiWallet.richest_wallet ["w1", "w2"]
        (fun w => if w = "w2" then (5 : ℚ) else 1) = some "w2" := by
  decide

/-- C1 counterexample: with `retry_attempts = 3`, a UTXO of value `10`
and a static fee of `11` (so `amount - fee ≤ 0`), `mint` does not fail
immediately: the insufficient-funds error is raised inside the retry
loop and retried, so three attempts are performed (still with zero
broadcast calls) before the error surfaces. -/
theorem mint_insufficient_funds_retry_counterexample :
    (MintEngine.mint ⟨3, 11, false, 400⟩
        ⟨none, none, none, none, "raw", fun _ => ⟨none, .err "e"⟩⟩
        10 "ZERO" 100).attempts = 3 ∧
    (MintEngine.mint ⟨3, 11, false, 400⟩
        ⟨none, none, none, none, "raw", fun _ => ⟨none, .err "e"⟩⟩
        10 "ZERO" 100).outcome = .err .insufficientFunds ∧
    (MintEngine.mint ⟨3, 11, false, 400⟩
        ⟨none, none, none, none, "raw", fun _ => ⟨none, .err "e"⟩⟩
        10 "ZERO" 100).broadcasts = [] := by
  have hm := mintRetry_insufficient 10 11 "raw" (fun _ => ⟨none, .err "e"⟩)
    (by norm_num) 2 0
  have hmint : MintEngine.mint ⟨3, 11, false, 400⟩
      ⟨none, none, none, none, "raw", fun _ => ⟨none, .err "e"⟩⟩ 10 "ZERO" 100 =
      ⟨1, build_mint_json "ZERO" 100, 2 + 1, [], .err .insufficientFunds⟩ := by
    unfold MintEngine.mint
    rw [show FeeEstimator.estimate 11 false 400 none none = 11 from rfl]
    rw [show (max 1 3 : Nat) = 2 + 1 from rfl]
    simp only [should_proceed, hm]
    rfl
  rw [hmint]
  exact ⟨rfl, rfl, rfl⟩

/-- C5 counterexample: with a ticker watcher reporting the tick not
live, `mint` does raise an error — the gating `RuntimeError` — rather
than returning a non-error skip outcome. -/
theorem mint_gating_raises_counterexample :
    (MintEngine.mint ⟨3, 1, false, 400⟩
        ⟨some false, none, none, none, "raw", fun _ => ⟨none, .err "e"⟩⟩
        1 "ZERO" 100).outcome = .err (.gated "ZERO") := by
  decide

/-- C9 counterexample: a negative value returned by the external fee API
is truthy, so the cascade returns it unchanged and the estimated fee is
negative. -/
theorem fee_estimate_negative_counterexample :
    FeeEstimator.estimate 1 true 400 none (some (-1)) < 0 := by
  decide

/-- C3: for a non-empty node list of length `N` and a current index in
range, `N` consecutive call failures visit every node exactly once
before repeating (the visited indices are `N` pairwise-distinct values,
each a valid node index, so each of the `N` nodes appears exactly once),
and `_switch_node` keeps the index in `[0, N)` after every operation. -/
theorem rpc_failover_round_robin (c : RPCClient) (hN : 0 < c.numNodes)
    (hi : c.index < c.numNodes) :
    (c.failedAttempts c.numNodes).length = c.numNodes ∧
    (c.failedAttempts c.numNodes).Nodup ∧
    (∀ m, m < c.numNodes → m ∈ c.failedAttempts c.numNodes) ∧
    (∀ d : RPCClient, 0 < d.numNodes → d.switch_node.index < d.numNodes) := by
  obtain ⟨N, i⟩ := c
  simp only at hN hi
  have hvis := failedAttempts_eq N hN N i hi
  refine ⟨?_, ?_, ?_, fun d hd => Nat.mod_lt _ hd⟩
  · rw [hvis]
    simp
  · rw [hvis]
    refine List.Nodup.map_on ?_ (List.nodup_range N)
    intro a ha b hb hab
    rw [List.mem_range] at ha hb
    have hm : a ≡ b [MOD N] := Nat.ModEq.add_left_cancel' i hab
    rw [← Nat.mod_eq_of_lt ha, ← Nat.mod_eq_of_lt hb]
    exact hm
  · intro m hm
    rw [hvis, List.mem_map]
    refine ⟨(N + m - i) % N, List.mem_range.mpr (Nat.mod_lt _ hN), ?_⟩
    rw [Nat.add_mod_mod,
      Nat.add_sub_cancel' (le_trans (Nat.le_of_lt hi) (Nat.le_add_right N m)),
      Nat.add_mod_left]
    exact Nat.mod_eq_of_lt hm

/-- C4: the fee cascade is total and ordered: with dynamic estimation
disabled the configured default is returned at once with no source
consulted; a truthy node-native result wins without consulting the
external API; if the node source yields nothing truthy and the API
yields a truthy value, that value is returned; and if both fallible
sources yield nothing truthy the default is returned — `estimate` never
fails. -/
theorem fee_estimator_cascade (d : ℚ) (dyn : Bool) (sz : ℚ) (fr api : Option ℚ) :
    (dyn = false → estimateRun d dyn sz fr api = ⟨d, false, false⟩) ∧
    (∀ f, estimate_from_rpc fr sz = some f → f ≠ 0 →
      estimateRun d true sz fr api = ⟨f, true, false⟩) ∧
    (truthyQ (estimate_from_rpc fr sz) = false →
      ∀ v, estimate_from_api api = some v → v ≠ 0 →
        estimateRun d true sz fr api = ⟨v, true, true⟩) ∧
    (truthyQ (estimate_from_rpc fr sz) = false →
      truthyQ (estimate_from_api api) = false →
      FeeEstimator.estimate d dyn sz fr api = d) := by
  refine ⟨fun h => by subst h; rfl, fun f hf hne => ?_, fun h1 v hv hvne => ?_,
    fun h1 h2 => ?_⟩
  · simp [estimateRun, truthyQ, hf, hne]
  · simp only [estimateRun, Bool.not_true, Bool.false_eq_true, if_false, h1]
    simp [truthyQ, hv, hvne]
  · cases dyn with
    | false => rfl
    | true => simp [FeeEstimator.estimate, estimateRun, h1, h2]

/-- C9 (amended): the estimated fee is non-negative whenever the
configured default fee, the assumed transaction size, and every value
delivered by the node-native and external fee sources are non-negative;
and a zero (like an absent) source value is falsy, so it is treated as
"source unavailable" and triggers fallback to the next source.  As
stated for arbitrary source values the claim is false: a negative
source value is truthy and is returned as-is
(see the counterexample). -/
theorem fee_estimate_nonneg_of_nonneg_sources (d : ℚ) (dyn : Bool) (sz : ℚ)
    (fr api : Option ℚ) (hd : 0 ≤ d) (hsz : 0 ≤ sz)
    (hfr : ∀ f, fr = some f → 0 ≤ f) (hapi : ∀ v, api = some v → 0 ≤ v) :
    0 ≤ FeeEstimator.estimate d dyn sz fr api ∧
    (∀ sz' api', FeeEstimator.estimate d true sz' (some 0) api' =
      FeeEstimator.estimate d true sz' none api') ∧
    (∀ fr' sz', FeeEstimator.estimate d true sz' fr' (some 0) =
      FeeEstimator.estimate d true sz' fr' none) := by
  refine ⟨?_,
    fun sz' api' => by simp [FeeEstimator.estimate, estimateRun, estimate_from_rpc],
    fun fr' sz' => by simp [FeeEstimator.estimate, estimateRun, estimate_from_api]⟩
  cases dyn with
  | false => simpa [FeeEstimator.estimate, estimateRun] using hd
  | true =>
    rcases hfr' : fr with _ | f
    · rcases hapi' : api with _ | v
      · simpa [FeeEstimator.estimate, estimateRun, estimate_from_rpc,
          estimate_from_api, truthyQ] using hd
      · have hv0 : 0 ≤ v := hapi v hapi'
        by_cases hv : v = 0
        · subst hv
          simpa [FeeEstimator.estimate, estimateRun, estimate_from_rpc,
            estimate_from_api, truthyQ] using hd
        · simpa [FeeEstimator.estimate, estimateRun, estimate_from_rpc,
            estimate_from_api, truthyQ, hv] using hv0
    · have hf0 : 0 ≤ f := hfr f hfr'
      by_cases hf : f = 0
      · subst hf
        rcases hapi' : api with _ | v
        · simpa [FeeEstimator.estimate, estimateRun, estimate_from_rpc,
            estimate_from_api, truthyQ] using hd
        · have hv0 : 0 ≤ v := hapi v hapi'
          by_cases hv : v = 0
          · subst hv
            simpa [FeeEstimator.estimate, estimateRun, estimate_from_rpc,
              estimate_from_api, truthyQ] using hd
          · simpa [FeeEstimator.estimate, estimateRun, estimate_from_rpc,
              estimate_from_api, truthyQ, hv] using hv0
      · have hscaled : 0 ≤ f * (sz / 1000) :=
          mul_nonneg hf0 (div_nonneg hsz (by norm_num))
        by_cases hz : f * (sz / 1000) = 0
        · rcases hapi' : api with _ | v
          · simpa [FeeEstimator.estimate, estimateRun, estimate_from_rpc,
              estimate_from_api, truthyQ, hf, hz] using hd
          · have hv0 : 0 ≤ v := hapi v hapi'
            by_cases hv : v = 0
            · subst hv
              simpa [FeeEstimator.estimate, estimateRun, estimate_from_rpc,
                estimate_from_api, truthyQ, hf, hz] using hd
            · simpa [FeeEstimator.estimate, estimateRun, estimate_from_rpc,
                estimate_from_api, truthyQ, hf, hz, hv] using hv0
        · simpa [FeeEstimator.estimate, estimateRun, estimate_from_rpc,
            estimate_from_api, truthyQ, hf, hz] using hscaled

/-! ### Witnesses -/

/-- Concrete witness for the amended C1: two configured retries, a UTXO
of `10` against a static fee of `11`. -/
theorem mint_insufficient_funds_no_broadcast_witness :
    should_proceed none none = true ∧
    ((10 : ℚ) - FeeEstimator.estimate 11 false 400 none none ≤ 0) ∧
    ((MintEngine.mint ⟨2, 11, false, 400⟩
        ⟨none, none, none, none, "rawhex", fun _ => ⟨none, .err "boom"⟩⟩
        10 "AAAA" 5).outcome = .err .insufficientFunds ∧
      (MintEngine.mint ⟨2, 11, false, 400⟩
        ⟨none, none, none, none, "rawhex", fun _ => ⟨none, .err "boom"⟩⟩
        10 "AAAA" 5).broadcasts = [] ∧
      (MintEngine.mint ⟨2, 11, false, 400⟩
        ⟨none, none, none, none, "rawhex", fun _ => ⟨none, .err "boom"⟩⟩
        10 "AAAA" 5).attempts = max 1 2) :=
  ⟨rfl, by norm_num [FeeEstimator.estimate, estimateRun],
    mint_insufficient_funds_no_broadcast ⟨2, 11, false, 400⟩
      ⟨none, none, none, none, "rawhex", fun _ => ⟨none, .err "boom"⟩⟩
      10 "AAAA" 5 rfl (by norm_num [FeeEstimator.estimate, estimateRun])⟩

/-- Concrete witness for C3: three nodes, starting index `1`. -/
theorem rpc_failover_round_robin_witness :
    ((RPCClient.mk 3 1).failedAttempts 3).length = 3 ∧
    ((RPCClient.mk 3 1).failedAttempts 3).Nodup ∧
    (∀ m, m < 3 → m ∈ (RPCClient.mk 3 1).failedAttempts 3) ∧
    (∀ d : RPCClient, 0 < d.numNodes → d.switch_node.index < d.numNodes) :=
  rpc_failover_round_robin ⟨3, 1⟩ (by decide) (by decide)

/-- Concrete witness for C4, touching all four cascade branches. -/
theorem fee_estimator_cascade_witness :
    estimateRun 5 false 400 (some 2) (some 7) = ⟨5, false, false⟩ ∧
    estimateRun 5 true 1000 (some 2) (some 7) = ⟨2, true, false⟩ ∧
    estimateRun 5 true 1000 none (some 7) = ⟨7, true, true⟩ ∧
    FeeEstimator.estimate 5 true 1000 none none = 5 := by
  refine ⟨(fee_estimator_cascade 5 false 400 (some 2) (some 7)).1 rfl, ?_, ?_, ?_⟩
  · exact (fee_estimator_cascade 5 true 1000 (some 2) (some 7)).2.1 2
      (by norm_num [estimate_from_rpc]) (by norm_num)
  · exact (fee_estimator_cascade 5 true 1000 none (some 7)).2.2.1 (by decide) 7
      (by decide) (by norm_num)
  · exact (fee_estimator_cascade 5 true 1000 none none).2.2.2 (by decide) (by decide)

/-- Concrete witness for the amended C5: the mempool scanner reports the
tick pending. -/
theorem mint_gating_aborts_with_error_witness :
    should_proceed none (some true) = false ∧
    ((MintEngine.mint ⟨1, 1, false, 400⟩
        ⟨none, some true, none, none, "dead", fun _ => ⟨none, .err "x"⟩⟩
        2 "PEPE" 5).outcome = .err (.gated "PEPE") ∧
      (MintEngine.mint ⟨1, 1, false, 400⟩
        ⟨none, some true, none, none, "dead", fun _ => ⟨none, .err "x"⟩⟩
        2 "PEPE" 5).feeCalls = 0 ∧
      (MintEngine.mint ⟨1, 1, false, 400⟩
        ⟨none, some true, none, none, "dead", fun _ => ⟨none, .err "x"⟩⟩
        2 "PEPE" 5).attempts = 0 ∧
      (MintEngine.mint ⟨1, 1, false, 400⟩
        ⟨none, some true, none, none, "dead", fun _ => ⟨none, .err "x"⟩⟩
        2 "PEPE" 5).broadcasts = [] ∧
      can_mint none (some true) = false) :=
  ⟨rfl, mint_gating_aborts_with_error ⟨1, 1, false, 400⟩
    ⟨none, some true, none, none, "dead", fun _ => ⟨none, .err "x"⟩⟩
    2 "PEPE" 5 rfl⟩

/-- Concrete witness for C6: ticker watcher reports the tick not live. -/
theorem mint_gating_before_fee_and_broadcast_witness :
    (some false : Option Bool) = some false ∧
    ((MintEngine.mint ⟨4, 7, true, 250⟩
        ⟨some false, none, some 2, some 3, "beef", fun _ => ⟨some "cafe", .ok "tx9"⟩⟩
        9 "MOON" 42).feeCalls = 0 ∧
      (MintEngine.mint ⟨4, 7, true, 250⟩
        ⟨some false, none, some 2, some 3, "beef", fun _ => ⟨some "cafe", .ok "tx9"⟩⟩
        9 "MOON" 42).broadcasts = [] ∧
      (MintEngine.mint ⟨4, 7, true, 250⟩
        ⟨some false, none, some 2, some 3, "beef", fun _ => ⟨some "cafe", .ok "tx9"⟩⟩
        9 "MOON" 42).attempts = 0) :=
  ⟨rfl, mint_gating_before_fee_and_broadcast ⟨4, 7, true, 250⟩
    ⟨some false, none, some 2, some 3, "beef", fun _ => ⟨some "cafe", .ok "tx9"⟩⟩
    9 "MOON" 42 rfl⟩

/-- Concrete witness for the amended C9: nothing from the node source,
`7` from the API source, non-negative default and size. -/
theorem fee_estimate_nonneg_of_nonneg_sources_witness :
    (0 : ℚ) ≤ 3 ∧ (0 : ℚ) ≤ 400 ∧
    (0 ≤ FeeEstimator.estimate 3 true 400 none (some 7) ∧
      (∀ sz' api', FeeEstimator.estimate 3 true sz' (some 0) api' =
        FeeEstimator.estimate 3 true sz' none api') ∧
      (∀ fr' sz', FeeEstimator.estimate 3 true sz' fr' (some 0) =
        FeeEstimator.estimate 3 true sz' fr' none)) :=
  ⟨by decide, by decide,
    fee_estimate_nonneg_of_nonneg_sources 3 true 400 none (some 7)
      (by decide) (by decide) (fun f h => nomatch h)
      (fun v h => by injection h with h2; rw [← h2]; norm_num)⟩

/-- Concrete witness for C10: the sign response carries no `hex` field,
and the unsigned hex `"c0de"` is what gets broadcast. -/
theorem mint_sign_hex_fallback_witness :
    should_proceed none none = true ∧
    (0 < (5 : ℚ) - FeeEstimator.estimate 2 false 400 none none) ∧
    ((MintEngine.mint ⟨1, 2, false, 400⟩
        ⟨none, none, none, none, "c0de", fun _ => ⟨none, .ok "txA"⟩⟩
        5 "GOLD" 8).broadcasts = ["c0de"] ∧
      (MintEngine.mint ⟨1, 2, false, 400⟩
        ⟨none, none, none, none, "c0de", fun _ => ⟨none, .ok "txA"⟩⟩
        5 "GOLD" 8).outcome = .ok "txA" ∧
      (MintEngine.mint ⟨1, 2, false, 400⟩
        ⟨none, none, none, none, "c0de", fun _ => ⟨none, .ok "txA"⟩⟩
        5 "GOLD" 8).attempts = 1) :=
  ⟨rfl, by norm_num [FeeEstimator.estimate, estimateRun],
    mint_sign_hex_fallback ⟨1, 2, false, 400⟩
      ⟨none, none, none, none, "c0de", fun _ => ⟨none, .ok "txA"⟩⟩
      5 "GOLD" 8 "txA" rfl (by norm_num [FeeEstimator.estimate, estimateRun]) rfl⟩

end ZordBOT
